import Mathlib

/-!
# Verification of the OP_NET wallet gateway (`src/server.js`)

Shallow embedding of the five HTTP route handlers of the Express backend in
`src/server.js`, together with theorems settling the frozen claims about the
gateway's request/response contract.

Modelling conventions:

* The remote provider and the dynamically imported SDK are external
  collaborators; their observable behaviour during one request is captured by
  an `Env` value (an oracle for each capability call).  A JavaScript `throw`
  or promise rejection is an `Except.error` carrying the error message
  (`err.message`).  An unconstructed provider (`provider === undefined`)
  makes every method access throw a `TypeError`; the embedding renders that
  as the error message `"TypeError: provider is undefined"`.
* JavaScript numbers appearing in the handlers are integer satoshi / token
  amounts (BigInt or integral Number); the embedding uses `Nat` and `ℚ` with
  exact decimal semantics for `Number(x) / 10 ** d` and `toFixed`.
* `res.json(body)` without an explicit status responds HTTP 200; the
  embedding returns an `HttpResponse` record with a `status` field.
* Optional JSON fields (present on one branch, absent on the other) are
  `Option` fields; `none` means the key is absent from the body.
-/

/-- One entry of the `NETWORKS` table in `server.js`. -/
structure NetworkProfile where
  rpcUrl : String
  name : String
  currency : String
deriving DecidableEq

/-- `NETWORKS.regtest`. -/
def NETWORKS_regtest : NetworkProfile :=
  { rpcUrl := "https://regtest.opnet.org", name := "Regtest", currency := "rBTC" }

/-- `NETWORKS.testnet`. -/
def NETWORKS_testnet : NetworkProfile :=
  { rpcUrl := "https://testnet.opnet.org", name := "Testnet", currency := "tBTC" }

/-- `NETWORKS.mainnet`. -/
def NETWORKS_mainnet : NetworkProfile :=
  { rpcUrl := "https://mainnet.opnet.org", name := "Mainnet", currency := "BTC" }

/-- `const ACTIVE_NETWORK = NETWORKS.regtest`. -/
def ACTIVE_NETWORK : NetworkProfile := NETWORKS_regtest

/-- A raw transaction record as returned by
`provider.getTransactionsByAddress`; only the fields the handler reads are
modelled.  `none` stands for an absent (`undefined`/`null`) field. -/
structure RawTx where
  hash : Option String
  id : Option String
  isOPNET : Bool
  type : Option String
  value : Option Nat
  blockTime : Option Nat
  blockHeight : Option Nat
deriving DecidableEq

/-- Observable outcome of one `getContract(...)` + `contract.balanceOf(addr)`
call inside a per-token / per-protocol `try` block:
the call throws (or rejects), returns a falsy result, returns a result whose
`error` field is truthy, or succeeds with `result.decoded?.[0]`
(`none` when `decoded` is absent or empty). -/
inductive CallOutcome where
  | throws (msg : String)
  | falsy
  | errorFlagged
  | ok (decoded0 : Option Nat)
deriving DecidableEq

/-- The provider handle created by `initProvider`, as an oracle for the
capability calls the handlers make on it. -/
structure Provider where
  getBlockNumber : Except String Nat
  getBalance : String → Except String Nat
  /-- `getTransactionsByAddress(address, offset, limit)`; `.ok none` models a
  resolved `null`/`undefined` list, `.ok (some l)` a real array. -/
  getTransactionsByAddress : String → Nat → Nat → Except String (Option (List RawTx))

/-- The whole external environment of one request: the (possibly never
constructed) provider singleton, the outcome of `await import('opnet')`, and
the outcome oracle for contract `balanceOf` calls
(`contractBalanceOf lpTokenAddress userAddress`).  The contract-call oracle
lives on the environment rather than on `Provider` because `getContract`
receives the possibly-undefined provider and its behaviour in that case is
SDK-internal; every behaviour is some `CallOutcome`. -/
structure Env where
  provider : Option Provider
  importOpnet : Except String Unit
  contractBalanceOf : String → String → CallOutcome

/-- Message of the `TypeError` raised when a method is accessed on the
undefined provider. -/
def providerUndefinedMsg : String := "TypeError: provider is undefined"

/-- `provider.getBlockNumber()` as seen by a handler (throws if the provider
was never constructed). -/
def callGetBlockNumber (env : Env) : Except String Nat :=
  match env.provider with
  | none => .error providerUndefinedMsg
  | some p => p.getBlockNumber

/-- `provider.getBalance(address)` as seen by a handler. -/
def callGetBalance (env : Env) (address : String) : Except String Nat :=
  match env.provider with
  | none => .error providerUndefinedMsg
  | some p => p.getBalance address

/-- `provider.getTransactionsByAddress(address, offset, limit)` as seen by a
handler. -/
def callGetTransactions (env : Env) (address : String) (offset limit : Nat) :
    Except String (Option (List RawTx)) :=
  match env.provider with
  | none => .error providerUndefinedMsg
  | some p => p.getTransactionsByAddress address offset limit

/-- An HTTP response: status code plus JSON body. -/
structure HttpResponse (α : Type) where
  status : Nat
  body : α
deriving DecidableEq

/-- Most-significant-first list of the low `k` base-10 digits of `m`. -/
def natDigitsPadded (m : Nat) : Nat → List Nat
  | 0 => []
  | k + 1 => m / 10 ^ k % 10 :: natDigitsPadded m k

/-- Value denoted by a most-significant-first base-10 digit list. -/
def digitsVal (ds : List Nat) : Nat :=
  ds.foldl (fun a d => a * 10 + d) 0

/-- Embedding of the JavaScript rendering `(Number(n) / 10 ** d).toFixed(d)`
for a nonnegative integer `n`, under exact decimal semantics: the decimal
integer part of `n / 10^d`, a dot, then exactly `d` base-10 digits of the
remainder, most significant first. -/
def formatFixedDiv (n d : Nat) : String :=
  Nat.repr (n / 10 ^ d) ++ "." ++
    String.mk ((natDigitsPadded (n % 10 ^ d) d).map Nat.digitChar)

/-- JavaScript `a || b` for an optional string `a` (absent and `""` are
falsy). -/
def jsOrString (a : Option String) (b : String) : String :=
  match a with
  | some s => if s = "" then b else s
  | none => b

/-- JavaScript `a || null` for an optional number `a` (absent and `0` are
falsy, both yielding `null`). -/
def jsOrNull (a : Option Nat) : Option Nat :=
  match a with
  | some 0 => none
  | x => x

/-! ## `/api/status` -/

/-- Body of the `/api/status` response. -/
structure StatusBody where
  connected : Bool
  network : String
  currency : String
  latestBlock : Option String
  mainnetLaunch : Option String
  error : Option String
deriving DecidableEq

/-- Handler of `GET /api/status`. -/
def statusRoute (env : Env) : HttpResponse StatusBody :=
  match callGetBlockNumber env with
  | .ok blockNumber =>
      { status := 200
        body := { connected := true, network := ACTIVE_NETWORK.name,
                  currency := ACTIVE_NETWORK.currency,
                  latestBlock := some (Nat.repr blockNumber),
                  mainnetLaunch := some "March 17, 2026", error := none } }
  | .error e =>
      { status := 200
        body := { connected := false, network := ACTIVE_NETWORK.name,
                  currency := ACTIVE_NETWORK.currency,
                  latestBlock := none, mainnetLaunch := none, error := some e } }

/-! ## `/api/balance/:address` -/

/-- Body of the `/api/balance/:address` response (all fields optional since
the three branches populate different subsets). -/
structure BalanceBody where
  address : Option String
  balanceSatoshis : Option String
  balanceBTC : Option String
  currency : Option String
  network : Option String
  error : Option String
  fallback : Option Bool
deriving DecidableEq

/-- Handler of `GET /api/balance/:address`.  The guard
`!address || address.length < 20` collapses to `address.length < 20`
(an empty string has length `0`). -/
def balanceRoute (env : Env) (address : String) : HttpResponse BalanceBody :=
  if address.length < 20 then
    { status := 400
      body := { address := none, balanceSatoshis := none, balanceBTC := none,
                currency := none, network := none,
                error := some "Invalid address", fallback := none } }
  else
    match callGetBalance env address with
    | .ok balanceSatoshis =>
        { status := 200
          body := { address := some address,
                    balanceSatoshis := some (Nat.repr balanceSatoshis),
                    balanceBTC := some (formatFixedDiv balanceSatoshis 8),
                    currency := some ACTIVE_NETWORK.currency,
                    network := some ACTIVE_NETWORK.name,
                    error := none, fallback := none } }
    | .error e =>
        { status := 500
          body := { address := none, balanceSatoshis := none,
                    balanceBTC := some "0.00000000",
                    currency := some ACTIVE_NETWORK.currency, network := none,
                    error := some e, fallback := some true } }

/-! ## `/api/transactions/:address` -/

/-- One derived transaction record. -/
structure TxRecord where
  txid : String
  type : String
  amount : String
  timestamp : Option Nat
  blockHeight : Option Nat
  isContractCall : Bool
deriving DecidableEq

/-- The arrow body of `(txList || []).map(tx => ({...}))`. -/
def mapTx (tx : RawTx) : TxRecord :=
  { txid := jsOrString tx.hash (jsOrString tx.id "unknown")
    type := if tx.isOPNET then "contract" else jsOrString tx.type "send"
    amount :=
      match tx.value with
      | some v => if v = 0 then "0" else formatFixedDiv v 8
      | none => "0"
    timestamp := jsOrNull tx.blockTime
    blockHeight := jsOrNull tx.blockHeight
    isContractCall := tx.isOPNET }

/-- Body of the `/api/transactions/:address` response. -/
structure TxBody where
  address : String
  transactions : List TxRecord
  count : Nat
  error : Option String
  fallback : Option Bool
deriving DecidableEq

/-- Handler of `GET /api/transactions/:address`. -/
def transactionsRoute (env : Env) (address : String) : HttpResponse TxBody :=
  match callGetTransactions env address 0 10 with
  | .ok txList =>
      let transactions := (txList.getD []).map mapTx
      { status := 200
        body := { address := address, transactions := transactions,
                  count := transactions.length, error := none, fallback := none } }
  | .error e =>
      { status := 200
        body := { address := address, transactions := [], count := 0,
                  error := some e, fallback := some true } }

/-! ## `/api/tokens/:address` -/

/-- One entry of the hardcoded `KNOWN_TOKENS` list. -/
structure TokenInfo where
  address : String
  symbol : String
  name : String
  decimals : Nat
  color : String
deriving DecidableEq

/-- The `KNOWN_TOKENS` list of `server.js`. -/
def KNOWN_TOKENS : List TokenInfo :=
  [{ address := "bcrt1plz0svv3wl05qrrv0dx8hvh5mgqc7jf3mhqgtw8jnj3l3d3cs6lzsfc3mxh",
     symbol := "MOTO", name := "MotoSwap Token", decimals := 8, color := "#f7931a" }]

/-- One output entry `{...token, balance}` of the token loop. -/
structure TokenResult where
  address : String
  symbol : String
  name : String
  decimals : Nat
  color : String
  balance : String
deriving DecidableEq

/-- Body of one iteration of the token loop (the inner `try`): skip on a
throw, a falsy result or an error-flagged result; otherwise decode
`result.decoded?.[0] || 0n` and keep the token only if the balance is
strictly positive.  `Number(raw) / 10 ** decimals > 0` holds exactly when
`raw > 0`, and `balance.toFixed(decimals)` is `formatFixedDiv raw decimals`. -/
def tokenStep (token : TokenInfo) (oc : CallOutcome) : Option TokenResult :=
  match oc with
  | .ok decoded0 =>
      let rawBalance := decoded0.getD 0
      if 0 < rawBalance then
        some { address := token.address, symbol := token.symbol,
               name := token.name, decimals := token.decimals,
               color := token.color,
               balance := formatFixedDiv rawBalance token.decimals }
      else none
  | _ => none

/-- The `for (const token of KNOWN_TOKENS)` loop: collect, in iteration
order, the results of the iterations that pushed one. -/
def processTokens (tokens : List TokenInfo) (oracle : TokenInfo → CallOutcome) :
    List TokenResult :=
  tokens.filterMap (fun t => tokenStep t (oracle t))

/-- Body of the `/api/tokens/:address` response. -/
structure TokensBody where
  address : String
  tokens : List TokenResult
  count : Nat
  error : Option String
  fallback : Option Bool
deriving DecidableEq

/-- Handler of `GET /api/tokens/:address`.  The outer `try` encloses the
dynamic `import('opnet')` and the loop; each loop iteration has its own
swallowing `catch`. -/
def tokensRoute (env : Env) (address : String) : HttpResponse TokensBody :=
  match env.importOpnet with
  | .ok _ =>
      let tokenBalances :=
        processTokens KNOWN_TOKENS (fun t => env.contractBalanceOf t.address address)
      { status := 200
        body := { address := address, tokens := tokenBalances,
                  count := tokenBalances.length, error := none, fallback := none } }
  | .error e =>
      { status := 200
        body := { address := address, tokens := [], count := 0,
                  error := some e, fallback := some true } }

/-! ## `/api/defi/:address` -/

/-- One entry of the hardcoded `DEFI_PROTOCOLS` list. -/
structure DefiProtocol where
  name : String
  type : String
  lpToken : String
  pair : String
  apy : String
  color : String
  risk : String
deriving DecidableEq

/-- The `DEFI_PROTOCOLS` list of `server.js`. -/
def DEFI_PROTOCOLS : List DefiProtocol :=
  [{ name := "MotoSwap", type := "Liquidity Pool",
     lpToken := "bcrt1plz0svv3wl05qrrv0dx8hvh5mgqc7jf3mhqgtw8jnj3l3d3cs6lzsfc3mxh",
     pair := "rBTC / MOTO", apy := "24.5", color := "#f7931a", risk := "Medium" }]

/-- Value of a base-10 digit sequence (`'0'` has codepoint 48). -/
def digitsToNat (cs : List Char) : Nat :=
  cs.foldl (fun a c => a * 10 + (c.toNat - 48)) 0

/-- Splits a character sequence at its first `'.'` into integer and
fractional digits. -/
def splitAtDot : List Char → List Char × List Char
  | [] => ([], [])
  | c :: cs =>
      if c = '.' then ([], cs)
      else
        let r := splitAtDot cs
        (c :: r.1, r.2)

/-- `parseFloat` on the nonnegative decimal literals used in the protocol
table (such as `"24.5"`), as an exact rational. -/
def parseDecimal (s : String) : ℚ :=
  let r := splitAtDot s.data
  (digitsToNat r.1 : ℚ) + (digitsToNat r.2 : ℚ) / (10 : ℚ) ^ r.2.length

/-- One emitted DeFi position.  The numeric fields `lpBalance`, `valueUSD`,
`earnings24h` and `earningsTotal` are kept as exact rationals; the source
renders them with `toFixed(8)` / `toFixed(2)` / `toFixed(4)` for display. -/
structure DefiPosition where
  protocol : String
  type : String
  pair : String
  lpBalance : ℚ
  valueUSD : ℚ
  apy : String
  color : String
  risk : String
  earnings24h : ℚ
  earningsTotal : ℚ
deriving DecidableEq

/-- Body of one iteration of the protocol loop (the inner `try`): skip on a
throw, a falsy result or an error-flagged result; otherwise decode the LP
balance `Number(balResult.decoded?.[0] || 0n) / 1e8` and, when it is
strictly positive, push the position computed from the hardcoded valuation
formulae. -/
def protocolStep (protocol : DefiProtocol) (oc : CallOutcome) : Option DefiPosition :=
  match oc with
  | .ok decoded0 =>
      let lpBalance : ℚ := (decoded0.getD 0 : ℚ) / 100000000
      if 0 < lpBalance then
        let valueUSD : ℚ := lpBalance * 98000 * 0.5
        some { protocol := protocol.name, type := protocol.type,
               pair := protocol.pair, lpBalance := lpBalance,
               valueUSD := valueUSD, apy := protocol.apy,
               color := protocol.color, risk := protocol.risk,
               earnings24h := valueUSD * (parseDecimal protocol.apy / 100) / 365,
               earningsTotal := valueUSD * (parseDecimal protocol.apy / 100) / 12 }
      else none
  | _ => none

/-- The `for (const protocol of DEFI_PROTOCOLS)` loop. -/
def processProtocols (protocols : List DefiProtocol)
    (oracle : DefiProtocol → CallOutcome) : List DefiPosition :=
  protocols.filterMap (fun p => protocolStep p (oracle p))

/-- Body of the `/api/defi/:address` response.  `fallback` is present on both
branches, hence a plain `Bool`. -/
structure DefiBody where
  address : String
  positions : List DefiPosition
  count : Nat
  network : Option String
  currency : Option String
  fallback : Bool
  error : Option String
deriving DecidableEq

/-- Handler of `GET /api/defi/:address`. -/
def defiRoute (env : Env) (address : String) : HttpResponse DefiBody :=
  match env.importOpnet with
  | .ok _ =>
      let positions :=
        processProtocols DEFI_PROTOCOLS (fun p => env.contractBalanceOf p.lpToken address)
      { status := 200
        body := { address := address, positions := positions,
                  count := positions.length,
                  network := some ACTIVE_NETWORK.name,
                  currency := some ACTIVE_NETWORK.currency,
                  fallback := positions.length == 0, error := none } }
  | .error e =>
      { status := 200
        body := { address := address, positions := [], count := 0,
                  network := none, currency := none,
                  fallback := true, error := some e } }

/-- The decoded integer carried by a successful contract call
(`result.decoded?.[0] || 0n`); `0` for every non-successful outcome. -/
def decodedOf : CallOutcome → Nat
  | .ok d => d.getD 0
  | _ => 0

/-- Whether one loop iteration emits an entry: the call succeeded and the
decoded balance is strictly positive. -/
def qualifies : CallOutcome → Bool
  | .ok d => decide (0 < d.getD 0)
  | _ => false

/-- The DeFi position record as claim C8 states it: `valueUSD` is the LP
balance (the decoded raw amount over `10^8`) times the fixed reference price
`98000` times one half; `earnings24h` is `valueUSD × (annualYieldPercent/100)
/ 365`; `earningsTotal` is `valueUSD × (annualYieldPercent/100) / 12`, the
annual yield percent being the protocol's `apy` figure. -/
def specPosition (p : DefiProtocol) (raw : Nat) : DefiPosition :=
  let lpBalance : ℚ := (raw : ℚ) / 100000000
  let valueUSD : ℚ := lpBalance * 98000 * (1 / 2)
  { protocol := p.name, type := p.type, pair := p.pair, lpBalance := lpBalance,
    valueUSD := valueUSD, apy := p.apy, color := p.color, risk := p.risk,
    earnings24h := valueUSD * (parseDecimal p.apy / 100) / 365,
    earningsTotal := valueUSD * (parseDecimal p.apy / 100) / 12 }

/-- The transaction derivation as the amended claim C6 states it: each field
falls back to its default when the raw field is absent or falsy (empty
string, zero number), and `type` falls back to the provider-supplied `type`
field (not an output-based receive/send classification). -/
def specTxRecord (tx : RawTx) : TxRecord :=
  { txid := ((tx.hash.filter (fun s => s != "")).orElse
      (fun _ => tx.id.filter (fun s => s != ""))).getD "unknown"
    type := if tx.isOPNET then "contract" else (tx.type.filter (fun s => s != "")).getD "send"
    amount :=
      match tx.value with
      | some v => if 0 < v then formatFixedDiv v 8 else "0"
      | none => "0"
    timestamp := tx.blockTime.filter (fun n => decide (0 < n))
    blockHeight := tx.blockHeight.filter (fun n => decide (0 < n))
    isContractCall := tx.isOPNET }

/-! ## The whole route table -/

/-- An incoming request to one of the routes. -/
inductive Request where
  | status
  | balance (address : String)
  | transactions (address : String)
  | tokens (address : String)
  | defi (address : String)
  | other (path : String)
deriving DecidableEq

/-- The body of a response from any route. -/
inductive RouteBody where
  | status (b : StatusBody)
  | balance (b : BalanceBody)
  | transactions (b : TxBody)
  | tokens (b : TokensBody)
  | defi (b : DefiBody)
  | staticFile (document : String)
deriving DecidableEq

/-- One request/response step of the server.  The only process-wide mutable
binding is the `provider` variable, assigned once by `initProvider` at boot;
no handler assigns it (or anything else), which the embedding makes explicit
by returning the environment alongside the response. -/
def handleRequest (env : Env) (req : Request) : Env × HttpResponse RouteBody :=
  match req with
  | .status => (env, { status := (statusRoute env).status,
                       body := .status (statusRoute env).body })
  | .balance a => (env, { status := (balanceRoute env a).status,
                          body := .balance (balanceRoute env a).body })
  | .transactions a => (env, { status := (transactionsRoute env a).status,
                               body := .transactions (transactionsRoute env a).body })
  | .tokens a => (env, { status := (tokensRoute env a).status,
                         body := .tokens (tokensRoute env a).body })
  | .defi a => (env, { status := (defiRoute env a).status,
                       body := .defi (defiRoute env a).body })
  | .other _ => (env, { status := 200, body := .staticFile "public/index.html" })

/-! ## Concrete fixtures for closed instantiations -/

/-- A valid-length test address (26 characters). -/
def testAddress : String := "bcrt1qtestaddress000000000"

/-- A provider whose capabilities all succeed with the given data. -/
def testProvider (sat : Nat) (txs : Option (List RawTx)) : Provider :=
  { getBlockNumber := .ok 123
    getBalance := fun _ => .ok sat
    getTransactionsByAddress := fun _ _ _ => .ok txs }

/-- A fully working environment: provider constructed, SDK import succeeds,
every contract call decodes to the given raw balance. -/
def envOk (sat : Nat) (txs : Option (List RawTx)) (raw : Option Nat) : Env :=
  { provider := some (testProvider sat txs)
    importOpnet := .ok ()
    contractBalanceOf := fun _ _ => .ok raw }

/-- The environment after `initProvider` failed: the provider singleton was
never constructed, so every method access on it throws, and every contract
call (handed the undefined provider) throws as well.  The SDK import itself
succeeds. -/
def envNoProvider : Env :=
  { provider := none
    importOpnet := .ok ()
    contractBalanceOf := fun _ _ => .throws "connection refused" }

/-- An environment in which `await import('opnet')` rejects, so the outer
`try` of the tokens and DeFi handlers catches. -/
def envImportFail : Env :=
  { provider := none
    importOpnet := .error "Cannot find module opnet"
    contractBalanceOf := fun _ _ => .throws "connection refused" }

/-- Three token descriptors for the loop-isolation instantiation. -/
def tokA : TokenInfo :=
  { address := "bcrt1qtokenaaa", symbol := "AAA", name := "Token A", decimals := 8,
    color := "#111111" }

/-- Second token descriptor (its lookup will throw). -/
def tokB : TokenInfo :=
  { address := "bcrt1qtokenbbb", symbol := "BBB", name := "Token B", decimals := 8,
    color := "#222222" }

/-- Third token descriptor. -/
def tokC : TokenInfo :=
  { address := "bcrt1qtokenccc", symbol := "CCC", name := "Token C", decimals := 8,
    color := "#333333" }

/-- An oracle that makes the middle token's lookup throw and gives every
other token the positive decoded balance `100000000`. -/
def oracleW : TokenInfo → CallOutcome := fun t =>
  if t.symbol = "BBB" then .throws "RPC error" else .ok (some 100000000)

/-- A raw transaction exercising the JavaScript falsiness edge cases: an
empty `hash`, a provider-supplied `type` outside {contract, receive, send},
and zero-valued `value`, `blockTime` and `blockHeight`. -/
def txCounterexample : RawTx :=
  { hash := some "", id := some "abc123", isOPNET := false, type := some "weird",
    value := some 0, blockTime := some 0, blockHeight := some 0 }

/-! ## Helper lemmas -/

theorem natDigitsPadded_length (m k : Nat) : (natDigitsPadded m k).length = k := by
  induction k with
  | zero => rfl
  | succ k ih => simp [natDigitsPadded, ih]

theorem mod_pow_succ_ten (m k : Nat) :
    m % 10 ^ (k + 1) = m / 10 ^ k % 10 * 10 ^ k + m % 10 ^ k := by
  rw [pow_succ, Nat.mod_mul]
  ring

theorem foldl_natDigitsPadded (m : Nat) :
    ∀ k a : Nat,
      (natDigitsPadded m k).foldl (fun a d => a * 10 + d) a = a * 10 ^ k + m % 10 ^ k := by
  intro k
  induction k with
  | zero => intro a; simp [natDigitsPadded, Nat.mod_one]
  | succ k ih =>
      intro a
      simp only [natDigitsPadded, List.foldl_cons]
      rw [ih, mod_pow_succ_ten]
      ring

theorem digitsVal_natDigitsPadded (m k : Nat) :
    digitsVal (natDigitsPadded m k) = m % 10 ^ k := by
  unfold digitsVal
  rw [foldl_natDigitsPadded]
  simp

/-! ## Claim theorems -/

/-- **C2** (confirmed).  For every successful `GetBalance` read, the response
is HTTP 200, `balanceSatoshis` is the provider-returned integer rendered as a
decimal string, and `balanceBTC` is the decimal integer part of
`balanceSatoshis / 100000000` followed by a dot and exactly eight base-10
digits denoting `balanceSatoshis % 100000000` — i.e. the satoshi amount
divided by `10^8`, rendered with exactly 8 fractional digits. -/
theorem getBalance_success_rendering (env : Env) (address : String) (sat : Nat)
    (hlen : 20 ≤ address.length) (hok : callGetBalance env address = .ok sat) :
    (balanceRoute env address).status = 200 ∧
    (balanceRoute env address).body.balanceSatoshis = some (Nat.repr sat) ∧
    ∃ frac : List Nat,
      frac.length = 8 ∧
      digitsVal frac = sat % 100000000 ∧
      sat / 100000000 * 100000000 + sat % 100000000 = sat ∧
      (balanceRoute env address).body.balanceBTC =
        some (Nat.repr (sat / 100000000) ++ "." ++ String.mk (frac.map Nat.digitChar)) := by
  unfold balanceRoute
  rw [if_neg (Nat.not_lt.mpr hlen), hok]
  refine ⟨rfl, rfl, natDigitsPadded (sat % 100000000) 8, natDigitsPadded_length _ _, ?_, ?_, ?_⟩
  · rw [digitsVal_natDigitsPadded]
    simp only [show (10 : ℕ) ^ 8 = 100000000 by norm_num]
    omega
  · omega
  · show some (formatFixedDiv sat 8) = _
    unfold formatFixedDiv
    norm_num

/-- Closed instantiation of `getBalance_success_rendering`, including the two
end-to-end figures of the claim: satoshis `150000000` render as
`"1.50000000"` and `250000000` as `"2.50000000"`. -/
theorem getBalance_success_rendering_witness :
    (20 ≤ testAddress.length ∧
      callGetBalance (envOk 150000000 (some []) none) testAddress = .ok 150000000) ∧
    (balanceRoute (envOk 150000000 (some []) none) testAddress).status = 200 ∧
    (balanceRoute (envOk 150000000 (some []) none) testAddress).body.balanceBTC =
      some "1.50000000" ∧
    (balanceRoute (envOk 150000000 (some []) none) testAddress).body.balanceSatoshis =
      some "150000000" ∧
    (balanceRoute (envOk 250000000 (some []) none) testAddress).body.balanceBTC =
      some "2.50000000" :=
  ⟨⟨by decide, rfl⟩,
   (getBalance_success_rendering (envOk 150000000 (some []) none) testAddress 150000000
      (by decide) rfl).1,
   by decide, by decide, by decide⟩

/-- **C3** (confirmed).  For every address shorter than 20 characters,
`GetBalance` responds HTTP 400 with body `{error: "Invalid address"}` and no
`balanceBTC` field, the response does not depend on the provider environment
(no provider call is performed), and no other route has a validation failure
path: the four other routes respond 200 on every environment. -/
theorem getBalance_invalid_address (env env2 : Env) (address : String)
    (hshort : address.length < 20) :
    balanceRoute env address =
      { status := 400
        body := { address := none, balanceSatoshis := none, balanceBTC := none,
                  currency := none, network := none,
                  error := some "Invalid address", fallback := none } } ∧
    (balanceRoute env address).body.balanceBTC = none ∧
    balanceRoute env address = balanceRoute env2 address ∧
    (statusRoute env).status = 200 ∧
    (transactionsRoute env address).status = 200 ∧
    (tokensRoute env address).status = 200 ∧
    (defiRoute env address).status = 200 := by
  refine ⟨?_, ?_, ?_, ?_, ?_, ?_, ?_⟩
  · unfold balanceRoute; rw [if_pos hshort]
  · unfold balanceRoute; rw [if_pos hshort]
  · simp [balanceRoute, hshort]
  · unfold statusRoute
    rcases callGetBlockNumber env with e | n <;> rfl
  · unfold transactionsRoute
    rcases callGetTransactions env address 0 10 with e | l <;> rfl
  · unfold tokensRoute
    rcases env.importOpnet with e | u <;> rfl
  · unfold defiRoute
    rcases env.importOpnet with e | u <;> rfl

/-- Closed instantiation of `getBalance_invalid_address` at the 3-character
address `"abc"`, over two different environments. -/
theorem getBalance_invalid_address_witness :
    "abc".length < 20 ∧
    balanceRoute envNoProvider "abc" =
      { status := 400
        body := { address := none, balanceSatoshis := none, balanceBTC := none,
                  currency := none, network := none,
                  error := some "Invalid address", fallback := none } } ∧
    balanceRoute envNoProvider "abc" = balanceRoute (envOk 0 none none) "abc" :=
  ⟨by decide,
   (getBalance_invalid_address envNoProvider (envOk 0 none none) "abc" (by decide)).1,
   (getBalance_invalid_address envNoProvider (envOk 0 none none) "abc" (by decide)).2.2.1⟩

/-- **C7** (confirmed).  Whenever the provider capability throws on
`GetStatus` (including when the provider singleton was never constructed),
the response is HTTP 200 with `connected: false`, the active profile's
network name and currency symbol, and the error message. -/
theorem getStatus_provider_failure (env : Env) (e : String)
    (herr : callGetBlockNumber env = .error e) :
    statusRoute env =
      { status := 200
        body := { connected := false, network := ACTIVE_NETWORK.name,
                  currency := ACTIVE_NETWORK.currency, latestBlock := none,
                  mainnetLaunch := none, error := some e } } ∧
    (statusRoute env).body.network = "Regtest" ∧
    (statusRoute env).body.currency = "rBTC" := by
  unfold statusRoute
  rw [herr]
  exact ⟨rfl, rfl, rfl⟩

/-- Closed instantiation of `getStatus_provider_failure` on the environment
whose provider was never constructed. -/
theorem getStatus_provider_failure_witness :
    callGetBlockNumber envNoProvider = .error providerUndefinedMsg ∧
    (statusRoute envNoProvider).body.connected = false ∧
    (statusRoute envNoProvider).body.network = "Regtest" ∧
    (statusRoute envNoProvider).body.currency = "rBTC" ∧
    (statusRoute envNoProvider).status = 200 :=
  ⟨rfl,
   by rw [(getStatus_provider_failure envNoProvider providerUndefinedMsg rfl).1],
   (getStatus_provider_failure envNoProvider providerUndefinedMsg rfl).2.1,
   (getStatus_provider_failure envNoProvider providerUndefinedMsg rfl).2.2,
   by rw [(getStatus_provider_failure envNoProvider providerUndefinedMsg rfl).1]⟩

/-- **C9** (confirmed).  Every route is a pure function of the environment
(the provider singleton and SDK import outcome) and the request: handling a
request leaves the server state unchanged, and handling the same request
again afterwards yields the identical response. -/
theorem routes_stateless_idempotent (env : Env) (req : Request) :
    (handleRequest env req).1 = env ∧
    handleRequest (handleRequest env req).1 req = handleRequest env req := by
  cases req <;> exact ⟨rfl, rfl⟩

/-- **C10** (confirmed).  When the provider's transactions call resolves to
`null`/`undefined` rather than throwing, `GetTransactions` responds HTTP 200
with `{address, transactions: [], count: 0}` and neither an `error` nor a
`fallback` field — the same response as for a genuinely empty transaction
list. -/
theorem getTransactions_null_result (env : Env) (address : String)
    (hnull : callGetTransactions env address 0 10 = .ok none) :
    transactionsRoute env address =
      { status := 200
        body := { address := address, transactions := [], count := 0,
                  error := none, fallback := none } } ∧
    ∀ env2 : Env, callGetTransactions env2 address 0 10 = .ok (some []) →
      transactionsRoute env2 address = transactionsRoute env address := by
  constructor
  · unfold transactionsRoute
    rw [hnull]
    rfl
  · intro env2 h2
    unfold transactionsRoute
    rw [hnull, h2]
    rfl

/-- Closed instantiation of `getTransactions_null_result`. -/
theorem getTransactions_null_result_witness :
    callGetTransactions (envOk 0 none none) testAddress 0 10 = .ok none ∧
    transactionsRoute (envOk 0 none none) testAddress =
      { status := 200
        body := { address := testAddress, transactions := [], count := 0,
                  error := none, fallback := none } } :=
  ⟨rfl, (getTransactions_null_result (envOk 0 none none) testAddress rfl).1⟩

theorem cast_div_pos_iff (n : Nat) : (0 : ℚ) < (n : ℚ) / 100000000 ↔ 0 < n := by
  rw [lt_div_iff₀ (by norm_num : (0 : ℚ) < 100000000)]
  simp

theorem protocolStep_eq (p : DefiProtocol) (oc : CallOutcome) :
    protocolStep p oc =
      if qualifies oc then some (specPosition p (decodedOf oc)) else none := by
  cases oc with
  | throws m => rfl
  | falsy => rfl
  | errorFlagged => rfl
  | ok d =>
      by_cases hpos : 0 < d.getD 0
      · have hc : (0 : ℚ) < ((d.getD 0 : Nat) : ℚ) / 100000000 :=
          (cast_div_pos_iff _).mpr hpos
        simp only [protocolStep, qualifies, decodedOf, specPosition, hpos]
        simp [hpos, if_pos hc]
        norm_num
      · have hc : ¬ (0 : ℚ) < ((d.getD 0 : Nat) : ℚ) / 100000000 := by
          rw [cast_div_pos_iff]; exact hpos
        simp [protocolStep, qualifies, decodedOf, hpos, hc]

theorem protocolStep_zero (p : DefiProtocol) : protocolStep p (.ok (some 0)) = none := by
  have := protocolStep_eq p (.ok (some 0))
  simpa [qualifies] using this

theorem processProtocols_nil_of_zero (protocols : List DefiProtocol)
    (oracle : DefiProtocol → CallOutcome)
    (h : ∀ p ∈ protocols, oracle p = .ok (some 0)) :
    processProtocols protocols oracle = [] := by
  induction protocols with
  | nil => rfl
  | cons p rest ih =>
      have hp := h p (List.mem_cons_self p rest)
      have hrest := ih (fun q hq => h q (List.mem_cons_of_mem _ hq))
      simp only [processProtocols] at hrest ⊢
      rw [List.filterMap_cons, hp, protocolStep_zero, hrest]

theorem defi_valuation_main (protocols : List DefiProtocol)
    (oracle : DefiProtocol → CallOutcome) :
    processProtocols protocols oracle =
      (protocols.filter (fun p => qualifies (oracle p))).map
        (fun p => specPosition p (decodedOf (oracle p))) := by
  induction protocols with
  | nil => rfl
  | cons p rest ih =>
      cases hq : qualifies (oracle p) with
      | false =>
          have hstep : protocolStep p (oracle p) = none := by
            rw [protocolStep_eq, hq]; rfl
          simp [processProtocols, List.filterMap_cons, List.filter_cons, hq, hstep] at ih ⊢
          exact ih
      | true =>
          have hstep : protocolStep p (oracle p) =
              some (specPosition p (decodedOf (oracle p))) := by
            rw [protocolStep_eq, hq]; rfl
          simp only [processProtocols, List.filterMap_cons, List.filter_cons, hq, hstep,
            if_true, List.map_cons] at ih ⊢
          simp [ih]

/-- **C4** (confirmed).  In the token loop: an iteration whose decoded
balance is exactly 0 contributes nothing; an iteration whose lookup throws,
returns a falsy result or an error-flagged result contributes nothing and
does not abort the loop (the output splits around it, so every other token
with positive decoded balance still appears); positive balances contribute
exactly their reshaped record; output order is iteration order; and on the
route the `count` field equals the output length. -/
theorem tokens_loop_isolation
    (oracle : TokenInfo → CallOutcome) (env : Env) (address : String) :
    (∀ t d, oracle t = .ok d → d.getD 0 = 0 → tokenStep t (oracle t) = none) ∧
    (∀ t m, oracle t = .throws m → tokenStep t (oracle t) = none) ∧
    (∀ t, oracle t = .errorFlagged → tokenStep t (oracle t) = none) ∧
    (∀ t, oracle t = .falsy → tokenStep t (oracle t) = none) ∧
    (∀ pre t post, tokenStep t (oracle t) = none →
      processTokens (pre ++ t :: post) oracle =
        processTokens pre oracle ++ processTokens post oracle) ∧
    (∀ t d, oracle t = .ok d → 0 < d.getD 0 →
      tokenStep t (oracle t) =
        some { address := t.address, symbol := t.symbol, name := t.name,
               decimals := t.decimals, color := t.color,
               balance := formatFixedDiv (d.getD 0) t.decimals }) ∧
    (∀ t rest,
      processTokens (t :: rest) oracle =
        match tokenStep t (oracle t) with
        | some r => r :: processTokens rest oracle
        | none => processTokens rest oracle) ∧
    (env.importOpnet = .ok () →
      (tokensRoute env address).body.tokens =
        processTokens KNOWN_TOKENS (fun t => env.contractBalanceOf t.address address) ∧
      (tokensRoute env address).body.count =
        (tokensRoute env address).body.tokens.length) := by
  refine ⟨?_, ?_, ?_, ?_, ?_, ?_, ?_, ?_⟩
  · intro t d hd h0
    rw [hd]
    simp [tokenStep, h0]
  · intro t m hm; rw [hm]; rfl
  · intro t hm; rw [hm]; rfl
  · intro t hm; rw [hm]; rfl
  · intro pre t post hnone
    simp [processTokens, List.filterMap_append, List.filterMap_cons, hnone]
  · intro t d hd hpos
    rw [hd]
    simp [tokenStep, hpos]
  · intro t rest
    cases hstep : tokenStep t (oracle t) <;>
      simp [processTokens, List.filterMap_cons, hstep]
  · intro himp
    unfold tokensRoute
    rw [himp]
    exact ⟨rfl, rfl⟩

/-- Closed instantiation of `tokens_loop_isolation`: one throwing token
injected amid two succeeding ones yields exactly the two succeeding tokens,
in order. -/
theorem tokens_loop_isolation_witness :
    tokenStep tokB (oracleW tokB) = none ∧
    processTokens ([tokA] ++ tokB :: [tokC]) oracleW =
      processTokens [tokA] oracleW ++ processTokens [tokC] oracleW ∧
    processTokens [tokA, tokB, tokC] oracleW =
      [{ address := "bcrt1qtokenaaa", symbol := "AAA", name := "Token A", decimals := 8,
         color := "#111111", balance := "1.00000000" },
       { address := "bcrt1qtokenccc", symbol := "CCC", name := "Token C", decimals := 8,
         color := "#333333", balance := "1.00000000" }] :=
  ⟨by decide,
   (tokens_loop_isolation oracleW envNoProvider testAddress).2.2.2.2.1
     [tokA] tokB [tokC] (by decide),
   by decide⟩

/-- **C5** (confirmed).  In every `GetDeFiPositions` response, `fallback` is
true iff the positions sequence is empty; and when every protocol's LP
balance decodes to 0, the response is `positions: []`, `fallback: true` with
no `error` field. -/
theorem defi_fallback_iff_empty (env : Env) (address : String) :
    ((defiRoute env address).body.fallback = true ↔
      (defiRoute env address).body.positions = []) ∧
    (env.importOpnet = .ok () →
      (∀ p ∈ DEFI_PROTOCOLS, env.contractBalanceOf p.lpToken address = .ok (some 0)) →
      (defiRoute env address).body.positions = [] ∧
      (defiRoute env address).body.fallback = true ∧
      (defiRoute env address).body.error = none) := by
  constructor
  · unfold defiRoute
    rcases h : env.importOpnet with e | u
    · simp
    · simp [List.length_eq_zero]
  · intro himp hzero
    have hpos : processProtocols DEFI_PROTOCOLS
        (fun p => env.contractBalanceOf p.lpToken address) = [] :=
      processProtocols_nil_of_zero _ _ (fun p hp => hzero p hp)
    unfold defiRoute
    rw [himp]
    simp [hpos]

/-- Closed instantiation of `defi_fallback_iff_empty` with the only
protocol's LP balance decoding to 0. -/
theorem defi_fallback_iff_empty_witness :
    ((envOk 0 (some []) (some 0)).importOpnet = .ok () ∧
      ∀ p ∈ DEFI_PROTOCOLS,
        (envOk 0 (some []) (some 0)).contractBalanceOf p.lpToken testAddress =
          .ok (some 0)) ∧
    (defiRoute (envOk 0 (some []) (some 0)) testAddress).body.positions = [] ∧
    (defiRoute (envOk 0 (some []) (some 0)) testAddress).body.fallback = true ∧
    (defiRoute (envOk 0 (some []) (some 0)) testAddress).body.error = none :=
  ⟨⟨rfl, fun _ _ => rfl⟩,
   (defi_fallback_iff_empty (envOk 0 (some []) (some 0)) testAddress).2 rfl
     (fun _ _ => rfl)⟩

theorem parseDecimal_245 : parseDecimal "24.5" = 49 / 2 := by
  unfold parseDecimal
  rw [show splitAtDot "24.5".data = (['2', '4'], ['5']) from rfl]
  show (digitsToNat ['2', '4'] : ℚ) + (digitsToNat ['5'] : ℚ) / (10 : ℚ) ^ (['5'].length)
    = 49 / 2
  rw [show digitsToNat ['2', '4'] = 24 from by decide,
      show digitsToNat ['5'] = 5 from by decide]
  norm_num

/-- **C8** (confirmed).  The protocol loop emits, in iteration order, exactly
one position per protocol whose decoded LP balance is strictly positive —
the record given by the spec-side valuation `specPosition` (`valueUSD` =
lpBalance × 98000 × ½, `earnings24h` = valueUSD × (apy/100) / 365,
`earningsTotal` = valueUSD × (apy/100) / 12) — and nothing for protocols
whose balance decodes to 0 or whose lookup fails. -/
theorem defi_position_valuation (protocols : List DefiProtocol)
    (oracle : DefiProtocol → CallOutcome) (env : Env) (address : String) :
    processProtocols protocols oracle =
      (protocols.filter (fun p => qualifies (oracle p))).map
        (fun p => specPosition p (decodedOf (oracle p))) ∧
    (∀ p, qualifies (oracle p) = false → protocolStep p (oracle p) = none) ∧
    (∀ p d, oracle p = .ok d → d.getD 0 = 0 → protocolStep p (oracle p) = none) ∧
    (env.importOpnet = .ok () →
      (defiRoute env address).body.positions =
        processProtocols DEFI_PROTOCOLS
          (fun p => env.contractBalanceOf p.lpToken address) ∧
      (defiRoute env address).body.count =
        (defiRoute env address).body.positions.length) := by
  refine ⟨defi_valuation_main protocols oracle, ?_, ?_, ?_⟩
  · intro p hq
    rw [protocolStep_eq, hq]
    rfl
  · intro p d hd h0
    rw [protocolStep_eq]
    simp [qualifies, hd, h0]
  · intro himp
    unfold defiRoute
    rw [himp]
    exact ⟨rfl, rfl⟩

/-- Closed instantiation of `defi_position_valuation`: a decoded LP balance
of `100000000` (that is, 1.0 LP units) for the MotoSwap protocol yields one
position with `valueUSD = 49000`, `earnings24h = 2401/73` (= 49000 × 0.245 /
365) and `earningsTotal = 12005/12` (= 49000 × 0.245 / 12). -/
theorem defi_position_valuation_witness :
    (envOk 0 (some []) (some 100000000)).importOpnet = .ok () ∧
    (defiRoute (envOk 0 (some []) (some 100000000)) testAddress).body.positions =
      [specPosition
        { name := "MotoSwap", type := "Liquidity Pool",
          lpToken := "bcrt1plz0svv3wl05qrrv0dx8hvh5mgqc7jf3mhqgtw8jnj3l3d3cs6lzsfc3mxh",
          pair := "rBTC / MOTO", apy := "24.5", color := "#f7931a", risk := "Medium" }
        100000000] ∧
    (defiRoute (envOk 0 (some []) (some 100000000)) testAddress).body.positions =
      [{ protocol := "MotoSwap", type := "Liquidity Pool", pair := "rBTC / MOTO",
         lpBalance := 1, valueUSD := 49000, apy := "24.5", color := "#f7931a",
         risk := "Medium", earnings24h := 2401 / 73, earningsTotal := 12005 / 12 }] := by
  have h := defi_position_valuation DEFI_PROTOCOLS
    (fun p => (envOk 0 (some []) (some 100000000)).contractBalanceOf p.lpToken testAddress)
    (envOk 0 (some []) (some 100000000)) testAddress
  refine ⟨rfl, ?_, ?_⟩
  · rw [(h.2.2.2 rfl).1, h.1]
    norm_num [DEFI_PROTOCOLS, envOk, qualifies, decodedOf, List.filter, List.map]
  · rw [(h.2.2.2 rfl).1, h.1]
    norm_num [DEFI_PROTOCOLS, envOk, qualifies, decodedOf, List.filter, List.map,
      specPosition, parseDecimal_245]

theorem jsOrString_eq (a : Option String) (b : String) :
    jsOrString a b = (a.filter (fun s => s != "")).getD b := by
  cases a with
  | none => rfl
  | some s => by_cases hs : s = "" <;> simp [jsOrString, Option.filter, hs]

theorem getD_orElse (x : Option String) (y : Unit → Option String) (c : String) :
    (x.orElse y).getD c = x.getD ((y ()).getD c) := by
  cases x <;> rfl

theorem jsOrNull_eq (a : Option Nat) :
    jsOrNull a = a.filter (fun n => decide (0 < n)) := by
  cases a with
  | none => rfl
  | some n =>
      cases n with
      | zero => rfl
      | succ k => simp [jsOrNull, Option.filter]

/-- **C6 amended**.  For every raw transaction, the derived record is the
truthiness-based derivation `specTxRecord`: `txid` is the first present and
non-empty of {hash, id} else `"unknown"`; `type` is `"contract"` when the
`isOPNET` marker is set, else the provider-supplied `type` field when present
and non-empty, else `"send"`; `amount` is `value/10^8` as an 8-decimal string
when `value` is present and nonzero, else `"0"`; `timestamp` and
`blockHeight` are the raw fields when present and nonzero, else null;
`isContractCall` is the boolean marker. -/
theorem tx_mapping_amended (tx : RawTx) : mapTx tx = specTxRecord tx := by
  rcases tx with ⟨h, i, o, t, v, bt, bh⟩
  simp only [mapTx, specTxRecord, TxRecord.mk.injEq]
  refine ⟨?_, ?_, ?_, ?_, ?_⟩
  · rw [jsOrString_eq, jsOrString_eq, getD_orElse]
  · cases o <;> simp [jsOrString_eq]
  · cases v with
    | none => rfl
    | some n =>
        cases n with
        | zero => simp
        | succ k => simp
  · exact jsOrNull_eq bt
  · exact ⟨jsOrNull_eq bh, trivial⟩

/-- **C6 counterexample**.  On a raw transaction with `hash = ""` (present
but falsy), a provider-supplied `type` of `"weird"`, `value = 0`, and zero
`blockTime`/`blockHeight`, the handler produces `txid = "abc123"` (not the
present `hash`), `type = "weird"` (not one of contract/receive/send),
`amount = "0"` (not the 8-decimal rendering `"0.00000000"` of the present
`value`), and null `timestamp`/`blockHeight` (not the present zero values) —
contradicting the claim's present-based derivation. -/
theorem tx_mapping_counterexample :
    (mapTx txCounterexample).txid = "abc123" ∧
    ¬ (mapTx txCounterexample).txid = "" ∧
    (mapTx txCounterexample).type = "weird" ∧
    ¬ ((mapTx txCounterexample).type = "contract" ∨
       (mapTx txCounterexample).type = "receive" ∨
       (mapTx txCounterexample).type = "send") ∧
    (mapTx txCounterexample).amount = "0" ∧
    ¬ (mapTx txCounterexample).amount = formatFixedDiv 0 8 ∧
    (mapTx txCounterexample).timestamp = none ∧
    (mapTx txCounterexample).blockHeight = none := by
  decide

/-- **C1** (corrected).  Failures of the single provider call of
`GetTransactions`, and failures of the orchestration (the dynamic SDK
import) of `GetTokenBalances` / `GetDeFiPositions`, yield HTTP 200 with
`{address, empty collection, count 0, error message, fallback: true}`.  A
per-token / per-protocol provider-call failure inside the loop is instead
swallowed: the route still responds HTTP 200 with the queried address, an
empty collection and count 0, but without an `error` field (and, for the
tokens route, without a `fallback` field).  No failure ever changes the
HTTP status of these three routes from 200. -/
theorem provider_failure_responses (env : Env) (address e : String) :
    (callGetTransactions env address 0 10 = .error e →
      transactionsRoute env address =
        { status := 200
          body := { address := address, transactions := [], count := 0,
                    error := some e, fallback := some true } }) ∧
    (env.importOpnet = .error e →
      tokensRoute env address =
        { status := 200
          body := { address := address, tokens := [], count := 0,
                    error := some e, fallback := some true } } ∧
      defiRoute env address =
        { status := 200
          body := { address := address, positions := [], count := 0,
                    network := none, currency := none,
                    fallback := true, error := some e } }) ∧
    (env.importOpnet = .ok () →
      (∀ t ∈ KNOWN_TOKENS, ∃ m, env.contractBalanceOf t.address address = .throws m) →
      tokensRoute env address =
        { status := 200
          body := { address := address, tokens := [], count := 0,
                    error := none, fallback := none } }) ∧
    (env.importOpnet = .ok () →
      (∀ p ∈ DEFI_PROTOCOLS, ∃ m, env.contractBalanceOf p.lpToken address = .throws m) →
      defiRoute env address =
        { status := 200
          body := { address := address, positions := [], count := 0,
                    network := some ACTIVE_NETWORK.name,
                    currency := some ACTIVE_NETWORK.currency,
                    fallback := true, error := none } }) ∧
    (transactionsRoute env address).status = 200 ∧
    (tokensRoute env address).status = 200 ∧
    (defiRoute env address).status = 200 := by
  refine ⟨?_, ?_, ?_, ?_, ?_, ?_, ?_⟩
  · intro h
    unfold transactionsRoute
    rw [h]
  · intro h
    constructor
    · unfold tokensRoute
      rw [h]
    · unfold defiRoute
      rw [h]
  · intro himp hthrow
    obtain ⟨m, hm⟩ := hthrow
      { address := "bcrt1plz0svv3wl05qrrv0dx8hvh5mgqc7jf3mhqgtw8jnj3l3d3cs6lzsfc3mxh",
        symbol := "MOTO", name := "MotoSwap Token", decimals := 8, color := "#f7931a" }
      (by simp [KNOWN_TOKENS])
    unfold tokensRoute
    rw [himp]
    simp [processTokens, KNOWN_TOKENS, tokenStep, hm]
  · intro himp hthrow
    obtain ⟨m, hm⟩ := hthrow
      { name := "MotoSwap", type := "Liquidity Pool",
        lpToken := "bcrt1plz0svv3wl05qrrv0dx8hvh5mgqc7jf3mhqgtw8jnj3l3d3cs6lzsfc3mxh",
        pair := "rBTC / MOTO", apy := "24.5", color := "#f7931a", risk := "Medium" }
      (by simp [DEFI_PROTOCOLS])
    unfold defiRoute
    rw [himp]
    simp [processProtocols, DEFI_PROTOCOLS, protocolStep, hm]
  · unfold transactionsRoute
    rcases callGetTransactions env address 0 10 with x | l <;> rfl
  · unfold tokensRoute
    rcases env.importOpnet with x | u <;> rfl
  · unfold defiRoute
    rcases env.importOpnet with x | u <;> rfl

/-- **C1 counterexample**.  With the provider never constructed (so the
contract `balanceOf` call of the single known token throws), the tokens
route responds 200 with an empty collection and count 0 but with *no* error
message and *no* `fallback: true`, and the DeFi route likewise carries no
error message — contradicting the claim that every provider failure yields a
body containing an error message and `fallback: true`. -/
theorem provider_failure_fallback_counterexample :
    (tokensRoute envNoProvider testAddress).status = 200 ∧
    (tokensRoute envNoProvider testAddress).body.tokens = [] ∧
    (tokensRoute envNoProvider testAddress).body.count = 0 ∧
    (tokensRoute envNoProvider testAddress).body.error = none ∧
    ¬ (tokensRoute envNoProvider testAddress).body.fallback = some true ∧
    (defiRoute envNoProvider testAddress).body.positions = [] ∧
    (defiRoute envNoProvider testAddress).body.error = none ∧
    (defiRoute envNoProvider testAddress).status = 200 := by
  decide

/-- Closed instantiation of `provider_failure_responses`. -/
theorem provider_failure_responses_witness :
    callGetTransactions envNoProvider testAddress 0 10 = .error providerUndefinedMsg ∧
    transactionsRoute envNoProvider testAddress =
      { status := 200
        body := { address := testAddress, transactions := [], count := 0,
                  error := some providerUndefinedMsg, fallback := some true } } ∧
    envImportFail.importOpnet = .error "Cannot find module opnet" ∧
    tokensRoute envImportFail testAddress =
      { status := 200
        body := { address := testAddress, tokens := [], count := 0,
                  error := some "Cannot find module opnet", fallback := some true } } ∧
    tokensRoute envNoProvider testAddress =
      { status := 200
        body := { address := testAddress, tokens := [], count := 0,
                  error := none, fallback := none } } :=
  ⟨rfl,
   (provider_failure_responses envNoProvider testAddress providerUndefinedMsg).1 rfl,
   rfl,
   ((provider_failure_responses envImportFail testAddress "Cannot find module opnet").2.1
      rfl).1,
   (provider_failure_responses envNoProvider testAddress providerUndefinedMsg).2.2.1 rfl
     (fun _ _ => ⟨"connection refused", rfl⟩)⟩
